import Mathlib

/-!
Verification of the demultiplexing core of `decombinator/demultiplex.py`.

Sequences, identifiers, quality strings and file names are modelled as
`List Char` (Python `str`).  Python dictionaries (`XXdict1`, `outputreads`,
`usedindexes`, and the filesystem of appended output files) are modelled as
association lists with Python `dict` / `collections.Counter` semantics.
Python runtime errors (`NameError` for an unassigned variable, `IndexError`
for an out-of-range subscript) are modelled with `Except String`.
-/

deriving instance DecidableEq for Except

namespace Demultiplex

/-- Error payload used when the model reaches a Python `NameError`
(reference to a variable that was never assigned on the executed path). -/
def nameErrorMsg : String := "NameError"

/-- Error payload used when the model reaches a Python `IndexError`. -/
def indexErrorMsg : String := "IndexError"

/-- Error payload for the startup message printed before `sys.exit()` when
neither an index list nor `--outputall` is supplied
(`demultiplex.py`, lines 362-366). -/
def noIndexMsg : String :=
  "No indexing file provided, and output all option not enabled"

/-- Error payload for the startup message printed before `sys.exit()` when a
FASTQ sanity check fails (`demultiplex.py`, lines 368-375). -/
def sanityMsg : String := "FASTQ sanity check failed"

/-- Python list/str subscript `xs[i]`: `IndexError` when out of range. -/
def pyIdx {α : Type} : List α → Nat → Except String α
  | [], _ => Except.error indexErrorMsg
  | x :: _, 0 => Except.ok x
  | _ :: xs, n + 1 => pyIdx xs n

/-- Reading a Python variable that is only assigned on some paths:
`none` models a name that was never bound, which raises `NameError`. -/
def readVar {α : Type} : Option α → Except String α
  | some v => Except.ok v
  | none => Except.error nameErrorMsg

/-- Python slice `s[lo:hi]` (for `0 ≤ lo ≤ hi`). -/
def pySlice (lo hi : Nat) (s : List Char) : List Char :=
  (s.take hi).drop lo

/-- Characters removed by Python `str.strip()` with no argument. -/
def isPyWhitespace (c : Char) : Bool :=
  c = ' ' || c = '\t' || c = '\n' || c = '\r' || c = '\x0b' || c = '\x0c'

/-- Python `str.strip()`. -/
def strip (s : List Char) : List Char :=
  ((s.dropWhile isPyWhitespace).reverse.dropWhile isPyWhitespace).reverse

/-- Python `line.split(",")`: split at every comma, keeping empty fields. -/
def splitComma (s : List Char) : List (List Char) :=
  s.foldr
    (fun c acc =>
      if c = ',' then [] :: acc
      else
        match acc with
        | g :: gs => (c :: g) :: gs
        | [] => [[c]])
    [[]]

/-- Worker for `replaceAll`, structurally recursive on a fuel argument that
bounds the number of characters still to be scanned (each step consumes at
least one character, so `fuel = s.length` always suffices). -/
def replaceAllFuel (pat rep : List Char) : Nat → List Char → List Char
  | 0, s => s
  | _ + 1, [] => []
  | fuel + 1, c :: rest =>
    if pat.isPrefixOf (c :: rest) ∧ 0 < pat.length then
      rep ++ replaceAllFuel pat rep fuel ((c :: rest).drop pat.length)
    else
      c :: replaceAllFuel pat rep fuel rest

/-- Python `s.replace(pat, rep)` for a non-empty `pat`: replace every
non-overlapping occurrence, scanning left to right.  (For `pat = []` Python
behaves differently; the program only uses the pattern `"R1.f"`.) -/
def replaceAll (pat rep s : List Char) : List Char :=
  replaceAllFuel pat rep s.length s

/-- Association-list lookup with Python `dict` key equality. -/
def dlookup {α : Type} : List (List Char × α) → List Char → Option α
  | [], _ => none
  | (k, v) :: rest, key => if k = key then some v else dlookup rest key

/-- `dlookup` defaulting to an empty string; total rendering of
`XXdict1[k]` for a key known to be present. -/
def lookupD (tbl : List (List Char × List Char)) (k : List Char) : List Char :=
  (dlookup tbl k).getD []

/-- Python `d[k] = v`: overwrite in place if present, else append. -/
def dictSet {α : Type} : List (List Char × α) → List Char → α → List (List Char × α)
  | [], k, v => [(k, v)]
  | (k', v') :: rest, k, v =>
    if k' = k then (k, v) :: rest else (k', v') :: dictSet rest k v

/-- `collections.Counter` increment `m[k] += 1` (missing keys count 0). -/
def incr : List (List Char × Nat) → List Char → List (List Char × Nat)
  | [], k => [(k, 1)]
  | (k', v) :: rest, k =>
    if k' = k then (k, v + 1) :: rest else (k', v) :: incr rest k

/-- Observed value of a counter key (0 when absent). -/
def cnt (m : List (List Char × Nat)) (k : List Char) : Nat :=
  (dlookup m k).getD 0

/-- Sum of all per-destination counts. -/
def sumCounts (m : List (List Char × Nat)) : Nat :=
  (m.map Prod.snd).sum

/-- Append one record to a named output file (`open(name, "a")` followed by
`write`); a missing file is created. -/
def appendFile : List (List Char × List (List Char)) → List Char → List Char →
    List (List Char × List (List Char))
  | [], name, rec => [(name, [rec])]
  | (n, rs) :: rest, name, rec =>
    if n = name then (n, rs ++ [rec]) :: rest
    else (n, rs) :: appendFile rest name rec

/-- Watson-Crick complement as implemented by `Bio.Seq` for the IUPAC
alphabet (ambiguous self-complementary codes map to themselves). -/
def complement (c : Char) : Char :=
  if c = 'A' then 'T' else if c = 'T' then 'A'
  else if c = 'C' then 'G' else if c = 'G' then 'C'
  else if c = 'R' then 'Y' else if c = 'Y' then 'R'
  else if c = 'K' then 'M' else if c = 'M' then 'K'
  else if c = 'B' then 'V' else if c = 'V' then 'B'
  else if c = 'D' then 'H' else if c = 'H' then 'D'
  else if c = 'U' then 'A' else c

/-- `revcomp(x) = str(Seq(x).reverse_complement())`
(`demultiplex.py`, lines 356-357). -/
def revcomp (x : List Char) : List Char :=
  x.reverse.map complement

/-- Levenshtein edit distance (`Levenshtein.distance`): unit-cost
substitutions, insertions and deletions.  Split into an auxiliary function
so that the recursion is structural and kernel-reducible. -/
def levenshteinAux (x : Char) (levxs : List Char → Nat) : List Char → Nat
  | [] => levxs [] + 1
  | y :: ys =>
    if x = y then levxs ys
    else 1 + min (levenshteinAux x levxs ys) (min (levxs (y :: ys)) (levxs ys))

/-- `levenshtein xs ys` is the edit distance between `xs` and `ys`. -/
def levenshtein : List Char → List Char → Nat
  | [], ys => ys.length
  | x :: xs, ys => levenshteinAux x (levenshtein xs) ys

/-- `XXdict1` / `XXdict` / `usedindexes`: compound index → output file name. -/
abbrev Table := List (List Char × List Char)

/-- `outputreads` (a `collections.Counter`). -/
abbrev Counter := List (List Char × Nat)

/-- One `(name, sequence, quality)` triple yielded by `readfq`
(`record[0]`, `record[1]`, `record[2]`). -/
structure SeqRecord where
  id : List Char
  seq : List Char
  qual : List Char
deriving DecidableEq

/-- A synchronized tuple from `zip(fq1, fq2, fq3)`:
`record1` = read 1, `record2` = index read 1, `record3` = read 2. -/
structure Tuple3 where
  record1 : SeqRecord
  record2 : SeqRecord
  record3 : SeqRecord
deriving DecidableEq

/-- A synchronized tuple from `zip(fq1, fq2, fq3, fq4)`:
`record1` = read 1, `record2` = index read 1, `record3` = read 2,
`record4` = index read 2. -/
structure Tuple4 where
  record1 : SeqRecord
  record2 : SeqRecord
  record3 : SeqRecord
  record4 : SeqRecord
deriving DecidableEq

/-- The local variables assigned by the per-read formatting section of the
main loop (`demultiplex.py`, lines 619-673).  Fields that a branch does not
assign are `none`: the 3-stream branch assigns `new_record` but neither
`new_record1` nor `new_record2`; the 4-stream branch does the opposite. -/
structure PerReadVars where
  fq_id : List Char
  seqX : List Char
  new_record : Option (List Char)
  new_record1 : Option (List Char)
  new_record2 : Option (List Char)
deriving DecidableEq

/-- `"@" + fq_id + "\n" + seq + "\n+\n" + qual + "\n"`
(the record text built at lines 643-645 and 667-672). -/
def pyFastq (fq_id seq qual : List Char) : List Char :=
  ['@'] ++ fq_id ++ ['\n'] ++ seq ++ ['\n', '+', '\n'] ++ qual ++ ['\n']

/-- Modelled from the spec's words (for the refinement claim about payload
records): "header marker + identifier, newline, sequence, newline,
separator marker (`+`), newline, quality, newline" — the standard 4-line
FASTQ layout. -/
def fastqText (id seq qual : List Char) : List Char :=
  ['@'] ++ id ++ ['\n'] ++ seq ++ ['\n'] ++ ['+'] ++ ['\n'] ++ qual ++ ['\n']

/-- The `len(records) == 3` formatting branch (lines 626-647). -/
def format3 (r : Tuple3) : PerReadVars :=
  let Nseq := pySlice 0 45 r.record3.seq
  let Nqual := pySlice 0 45 r.record3.qual
  let X1seq := pySlice 6 12 r.record1.seq
  let X1qual := pySlice 6 12 r.record1.qual
  let X2seq := r.record2.seq
  let X2qual := r.record2.qual
  let readseq := r.record1.seq.drop 12
  let readqual := r.record1.qual.drop 12
  let fq_seq := Nseq ++ X1seq ++ X2seq ++ readseq
  let fq_qual := Nqual ++ X1qual ++ X2qual ++ readqual
  { fq_id := r.record1.id
  , seqX := X1seq ++ X2seq
  , new_record := some (pyFastq r.record1.id fq_seq fq_qual)
  , new_record1 := none
  , new_record2 := none }

/-- The `len(records) == 4` formatting branch (lines 650-673): `X1seq` is
the whole of `record4`'s sequence, `X2seq` the whole of `record2`'s,
`seqX = X1seq + X2seq`; both payload records reuse `fq_id = record1[0]`. -/
def format4 (r : Tuple4) : PerReadVars :=
  { fq_id := r.record1.id
  , seqX := r.record4.seq ++ r.record2.seq
  , new_record := none
  , new_record1 := some (pyFastq r.record1.id r.record1.seq r.record1.qual)
  , new_record2 := some (pyFastq r.record1.id r.record3.seq r.record3.qual) }

/-- The key of the `Undetermined` counter. -/
def undeterminedKey : List Char := "Undetermined".toList

/-- The substring rewritten to derive the R2 file name (line 683). -/
def r1Pat : List Char := "R1.f".toList

/-- Its replacement. -/
def r2Rep : List Char := "R2.f".toList

/-- The mutable run state threaded through the main loop: the counters and
lists of lines 549-554, the `outputreads` counter, the appended output
files, and the two `Undetermined` destinations `failed1` / `failed2`. -/
structure RunState where
  count : Nat
  dmpd_count : Nat
  fuzzy_count : Nat
  clash_count : Nat
  fuzzies : List (List Char)
  outputreads : Counter
  files : List (List Char × List (List Char))
  failed1 : List (List Char)
  failed2 : List (List Char)
deriving DecidableEq

/-- The demultiplexing section of the loop body (lines 678-726).  The table
argument is `some XXdict1` when `XXdict1` was assigned at startup (the
dual-index path) and `none` when it was not (the single-index path, whose
startup `read_index_single_file` only binds `XXdict`): reading an
unassigned name raises `NameError`. -/
def demuxStep (tbl? : Option Table) (threshold : Nat) (v : PerReadVars)
    (st : RunState) : Except String RunState :=
  match readVar tbl? with
  | Except.error e => Except.error e
  | Except.ok tbl =>
    match dlookup tbl v.seqX with
    | some dest =>
      match readVar v.new_record1, readVar v.new_record2 with
      | Except.error e, _ => Except.error e
      | Except.ok _, Except.error e => Except.error e
      | Except.ok nr1, Except.ok nr2 =>
        Except.ok { st with
          files := appendFile (appendFile st.files dest nr1)
                     (replaceAll r1Pat r2Rep dest) nr2
          dmpd_count := st.dmpd_count + 1
          outputreads := incr st.outputreads dest }
    | none =>
      let matchlist := (tbl.map Prod.fst).filter
        (fun ndx => levenshtein ndx v.seqX ≤ threshold)
      match matchlist with
      | [m] =>
        let dest := lookupD tbl m
        match readVar v.new_record1, readVar v.new_record2 with
        | Except.error e, _ => Except.error e
        | Except.ok _, Except.error e => Except.error e
        | Except.ok nr1, Except.ok nr2 =>
          Except.ok { st with
            files := appendFile (appendFile st.files dest nr1)
                       (replaceAll r1Pat r2Rep dest) nr2
            dmpd_count := st.dmpd_count + 1
            fuzzy_count := st.fuzzy_count + 1
            fuzzies := st.fuzzies ++ [v.fq_id]
            outputreads := incr st.outputreads dest }
      | ms =>
        match readVar v.new_record1, readVar v.new_record2 with
        | Except.error e, _ => Except.error e
        | Except.ok _, Except.error e => Except.error e
        | Except.ok nr1, Except.ok nr2 =>
          Except.ok { st with
            clash_count := st.clash_count + (if ms.length > 1 then 1 else 0)
            failed1 := st.failed1 ++ [nr1]
            failed2 := st.failed2 ++ [nr2]
            outputreads := incr st.outputreads undeterminedKey }

/-- The classification outcome of one read, as described by the branch
structure of lines 678-726: exact dictionary hit, unique fuzzy candidate,
several fuzzy candidates, or none. -/
inductive Outcome where
  | Exact (dest : List Char)
  | Fuzzy (dest : List Char) (distance : Nat)
  | Ambiguous (candidates : Nat)
  | Unmatched
deriving DecidableEq

/-- The pure classification decision taken by the loop body for a compound
barcode `seqX` (same conditions, in the same order, as `demuxStep`). -/
def classify (tbl : Table) (threshold : Nat) (seqX : List Char) : Outcome :=
  match dlookup tbl seqX with
  | some dest => Outcome.Exact dest
  | none =>
    let matchlist := (tbl.map Prod.fst).filter
      (fun ndx => levenshtein ndx seqX ≤ threshold)
    match matchlist with
    | [m] => Outcome.Fuzzy (lookupD tbl m) (levenshtein m seqX)
    | [] => Outcome.Unmatched
    | ms => Outcome.Ambiguous ms.length

/-- The main loop over the synchronized 4-stream input (lines 598-726):
`count += 1`, format, demultiplex, next read. -/
def runLoop (tbl : Table) (threshold : Nat) :
    List Tuple4 → RunState → Except String RunState
  | [], st => Except.ok st
  | r :: rs, st =>
    match demuxStep (some tbl) threshold (format4 r)
        { st with count := st.count + 1 } with
    | Except.error e => Except.error e
    | Except.ok st' => runLoop tbl threshold rs st'

/-- `fastq_check(infile)` (lines 200-226) applied to the physical lines of
the file (each line, as produced by file iteration, keeps its trailing
newline).  `read` is the first-4-lines slice; the three subscripted
accesses `read[0][0]`, `read[2][0]`, `read[1]` / `read[3]` are evaluated in
source order and raise `IndexError` when out of range. -/
def fastq_check (lines : List (List Char)) : Except String Bool :=
  let read := lines.take 4
  match pyIdx read 0 with
  | Except.error e => Except.error e
  | Except.ok r0 =>
    match pyIdx r0 0 with
    | Except.error e => Except.error e
    | Except.ok r00 =>
      match pyIdx read 2 with
      | Except.error e => Except.error e
      | Except.ok r2 =>
        match pyIdx r2 0 with
        | Except.error e => Except.error e
        | Except.ok r20 =>
          match pyIdx read 1 with
          | Except.error e => Except.error e
          | Except.ok r1 =>
            match pyIdx read 3 with
            | Except.error e => Except.error e
            | Except.ok r3 =>
              Except.ok ((r00 == '@') && (r20 == '+')
                && (r1.length == r3.length))

/-- The startup loop `for f in [read1, read2, index1]` (lines 368-375):
the first file whose sanity check returns `False` exits the process; an
exception raised inside `fastq_check` also aborts it. -/
def check_files : List (List (List Char)) → Except String Unit
  | [] => Except.ok ()
  | f :: rest =>
    match fastq_check f with
    | Except.error e => Except.error e
    | Except.ok false => Except.error sanityMsg
    | Except.ok true => check_files rest

/-- The configuration and input-file contents consumed by the module-level
startup checks.  `indexlist_given` is the truthiness of
`inputargs["indexlist"]`; `index2` is `some` iff a second index file was
supplied. -/
structure StartupInput where
  outputall : Bool
  indexlist_given : Bool
  read1 : List (List Char)
  read2 : List (List Char)
  index1 : List (List Char)
  index2 : Option (List (List Char))
deriving DecidableEq

/-- The module-level startup checks (lines 362-375), run before any read is
classified: exit if neither an index list nor `--outputall` is given, then
sanity-check `read1`, `read2` and `index1` (and only those three files). -/
def startup_checks (inp : StartupInput) : Except String Unit :=
  if inp.outputall = false ∧ inp.indexlist_given = false then
    Except.error noIndexMsg
  else
    check_files [inp.read1, inp.read2, inp.index1]

/-- Parsing of one non-blank line of the dual-index sample table
(lines 332-341): `elements = [y.strip() for y in line.split(",")]`,
`sample = elements[0]`, `index1 = revcomp(elements[1])`,
`index2 = elements[2]`, `compound_index = index2 + index1`. -/
def dualRowKey (line : List Char) :
    Except String (List Char × List Char) :=
  let elements := (splitComma line).map strip
  match pyIdx elements 0 with
  | Except.error e => Except.error e
  | Except.ok sample =>
    match pyIdx elements 1 with
    | Except.error e => Except.error e
    | Except.ok e1 =>
      let index1 := revcomp e1
      match pyIdx elements 2 with
      | Except.error e => Except.error e
      | Except.ok index2 => Except.ok (sample, index2 ++ index1)

/-- The tables built by `read_index_dual_file` (lines 311-348). -/
structure DualIndexTables where
  XXdict1 : Table
  outputreads : Counter
  usedindexes : Table
deriving DecidableEq

/-- The row loop of `read_index_dual_file`: stop at the first blank line,
otherwise record `XXdict1[compound_index] = sample + "_R1" + suffix`,
`outputreads[sample] = 0`, `usedindexes[sample] = compound_index`. -/
def read_index_dual_lines (ext : List Char) :
    List (List Char) → DualIndexTables → Except String DualIndexTables
  | [], acc => Except.ok acc
  | line :: rest, acc =>
    if line = ['\n'] then Except.ok acc
    else
      match dualRowKey line with
      | Except.error e => Except.error e
      | Except.ok (sample, compound) =>
        read_index_dual_lines ext rest
          { XXdict1 :=
              dictSet acc.XXdict1 compound
                (sample ++ ("_R1".toList) ++ '.' :: ext)
          , outputreads := dictSet acc.outputreads sample 0
          , usedindexes := dictSet acc.usedindexes sample compound }

/-- `read_index_dual_file(inputargs)` on the lines of the index file, for
output extension `ext`: starts from `outputreads = {"Undetermined": 0}` and
empty dictionaries. -/
def read_index_dual_file (ext : List Char) (lines : List (List Char)) :
    Except String DualIndexTables :=
  read_index_dual_lines ext lines
    { XXdict1 := []
    , outputreads := [(undeterminedKey, 0)]
    , usedindexes := [] }

/-! ### Shared lemmas -/

theorem levenshtein_eq_zero (xs ys : List Char) :
    levenshtein xs ys = 0 ↔ xs = ys := by
  induction xs generalizing ys with
  | nil => cases ys <;> simp [levenshtein]
  | cons x xs ih =>
    cases ys with
    | nil => simp [levenshtein, levenshteinAux]
    | cons y ys =>
      simp only [levenshtein, levenshteinAux]
      by_cases hxy : x = y
      · subst hxy
        rw [if_pos rfl]
        simp only [levenshtein] at ih
        rw [ih]
        simp
      · rw [if_neg hxy]
        constructor
        · intro h
          omega
        · intro h
          injection h with h1 _
          exact absurd h1 hxy

theorem dlookup_eq_none {α : Type} (tbl : List (List Char × α)) (k : List Char) :
    dlookup tbl k = none ↔ k ∉ tbl.map Prod.fst := by
  induction tbl with
  | nil => exact ⟨fun _ => List.not_mem_nil k, fun _ => rfl⟩
  | cons p rest ih =>
    obtain ⟨k', v⟩ := p
    simp only [dlookup, List.map_cons, List.mem_cons]
    by_cases h : k' = k
    · subst h
      rw [if_pos rfl]
      exact ⟨fun h2 => absurd h2 (Option.some_ne_none v),
        fun h2 => absurd (Or.inl rfl) h2⟩
    · rw [if_neg h, ih]
      constructor
      · intro hnot hor
        rcases hor with he | hm
        · exact h he.symm
        · exact hnot hm
      · intro hnot hm
        exact hnot (Or.inr hm)

theorem dlookup_incr_self (m : Counter) (k : List Char) :
    dlookup (incr m k) k = some (cnt m k + 1) := by
  induction m with
  | nil => simp [incr, dlookup, cnt]
  | cons p rest ih =>
    obtain ⟨k', v⟩ := p
    by_cases h : k' = k
    · subst h
      simp [incr, dlookup, cnt]
    · simp only [incr, if_neg h, dlookup, cnt]
      simpa [cnt] using ih

theorem dlookup_incr_ne (m : Counter) (k k' : List Char) (h : k' ≠ k) :
    dlookup (incr m k) k' = dlookup m k' := by
  induction m with
  | nil =>
    simp only [incr, dlookup]
    rw [if_neg (fun he : k = k' => h he.symm)]
  | cons p rest ih =>
    obtain ⟨k'', v⟩ := p
    by_cases h2 : k'' = k
    · subst h2
      simp only [incr, if_pos rfl, dlookup]
      rw [if_neg (fun he : k'' = k' => h he.symm),
        if_neg (fun he : k'' = k' => h he.symm)]
    · simp only [incr, if_neg h2, dlookup]
      by_cases h3 : k'' = k'
      · rw [if_pos h3, if_pos h3]
      · rw [if_neg h3, if_neg h3]
        exact ih

theorem cnt_incr_self (m : Counter) (k : List Char) :
    cnt (incr m k) k = cnt m k + 1 := by
  simp [cnt, dlookup_incr_self m k]

theorem cnt_incr_ne (m : Counter) (k k' : List Char) (h : k' ≠ k) :
    cnt (incr m k) k' = cnt m k' := by
  simp [cnt, dlookup_incr_ne m k k' h]

theorem sumCounts_incr (m : Counter) (k : List Char) :
    sumCounts (incr m k) = sumCounts m + 1 := by
  induction m with
  | nil => simp [incr, sumCounts]
  | cons p rest ih =>
    obtain ⟨k', v⟩ := p
    by_cases h : k' = k
    · subst h
      simp [incr, sumCounts]
      omega
    · simp only [incr, if_neg h, sumCounts, List.map_cons, List.sum_cons] at ih ⊢
      omega

theorem check_files_false {f : List (List Char)} :
    ∀ fs, f ∈ fs → fastq_check f = Except.ok false →
      ∃ e, check_files fs = Except.error e := by
  intro fs
  induction fs with
  | nil =>
    intro h
    cases h
  | cons g rest ih =>
    intro hmem hf
    cases hg : fastq_check g with
    | error e =>
      exact ⟨e, by simp only [check_files]; rw [hg]⟩
    | ok b =>
      cases b with
      | false =>
        exact ⟨sanityMsg, by simp only [check_files]; rw [hg]⟩
      | true =>
        rcases List.mem_cons.mp hmem with h1 | h2
        · subst h1
          rw [hf] at hg
          cases hg
        · obtain ⟨e, he⟩ := ih h2 hf
          refine ⟨e, ?_⟩
          simp only [check_files]
          rw [hg]
          exact he

theorem format4_new_record1 (r : Tuple4) :
    (format4 r).new_record1 =
      some (pyFastq r.record1.id r.record1.seq r.record1.qual) := rfl

theorem format4_new_record2 (r : Tuple4) :
    (format4 r).new_record2 =
      some (pyFastq r.record1.id r.record3.seq r.record3.qual) := rfl

theorem format4_fq_id (r : Tuple4) : (format4 r).fq_id = r.record1.id := rfl

/-- On the dual-index (4-stream) path every read takes exactly one of the
three demultiplexing branches, succeeds, and bumps exactly one
`outputreads` key by one. -/
theorem demuxStep_format4_ok (tbl : Table) (t : Nat) (r : Tuple4)
    (st : RunState) :
    ∃ k st', demuxStep (some tbl) t (format4 r) st = Except.ok st' ∧
      st'.outputreads = incr st.outputreads k ∧ st'.count = st.count := by
  cases hd : dlookup tbl (format4 r).seqX with
  | some dest =>
    refine ⟨dest,
      { st with
        files := appendFile
            (appendFile st.files dest
              (pyFastq r.record1.id r.record1.seq r.record1.qual))
            (replaceAll r1Pat r2Rep dest)
            (pyFastq r.record1.id r.record3.seq r.record3.qual)
        dmpd_count := st.dmpd_count + 1
        outputreads := incr st.outputreads dest }, ?_, rfl, rfl⟩
    simp only [demuxStep, readVar, hd, format4_new_record1, format4_new_record2, format4_fq_id]
  | none =>
    rcases hms : (tbl.map Prod.fst).filter
        (fun ndx => levenshtein ndx (format4 r).seqX ≤ t) with _ | ⟨m1, _ | ⟨m2, ms⟩⟩
    · refine ⟨undeterminedKey,
        { st with
          failed1 := st.failed1 ++
            [pyFastq r.record1.id r.record1.seq r.record1.qual]
          failed2 := st.failed2 ++
            [pyFastq r.record1.id r.record3.seq r.record3.qual]
          outputreads := incr st.outputreads undeterminedKey }, ?_, rfl, rfl⟩
      simp only [demuxStep, readVar, hd, hms, format4_new_record1, format4_new_record2, format4_fq_id]
      simp
    · refine ⟨lookupD tbl m1,
        { st with
          files := appendFile
              (appendFile st.files (lookupD tbl m1)
                (pyFastq r.record1.id r.record1.seq r.record1.qual))
              (replaceAll r1Pat r2Rep (lookupD tbl m1))
              (pyFastq r.record1.id r.record3.seq r.record3.qual)
          dmpd_count := st.dmpd_count + 1
          fuzzy_count := st.fuzzy_count + 1
          fuzzies := st.fuzzies ++ [r.record1.id]
          outputreads := incr st.outputreads (lookupD tbl m1) }, ?_, rfl, rfl⟩
      simp only [demuxStep, readVar, hd, hms, format4_new_record1, format4_new_record2, format4_fq_id]
    · refine ⟨undeterminedKey,
        { st with
          clash_count := st.clash_count + 1
          failed1 := st.failed1 ++
            [pyFastq r.record1.id r.record1.seq r.record1.qual]
          failed2 := st.failed2 ++
            [pyFastq r.record1.id r.record3.seq r.record3.qual]
          outputreads := incr st.outputreads undeterminedKey }, ?_, rfl, rfl⟩
      simp only [demuxStep, readVar, hd, hms, format4_new_record1, format4_new_record2, format4_fq_id]
      simp

/-! ### Claim theorems -/

/-- Claim C1: for every compound barcode that is exactly a `CompoundIndex`
key of the table, classification is `Exact` for that sample's destination,
for every threshold — the result does not depend on the threshold at all
(in particular it also holds at threshold 0), because the exact branch is a
plain dictionary membership test that precedes any distance computation. -/
theorem claim_c1_exact_match (tbl : Table) (t : Nat) (seqX dest : List Char)
    (h : dlookup tbl seqX = some dest) :
    classify tbl t seqX = Outcome.Exact dest ∧
      classify tbl t seqX = classify tbl 0 seqX := by
  constructor
  · simp only [classify, h]
  · simp only [classify, h]

/-- Witness for C1 at a concrete one-row table and threshold 0. -/
theorem claim_c1_exact_match_witness :
    classify [(("ATCACGCGTGAT".toList), ("S1_R1.fq".toList))] 0
        ("ATCACGCGTGAT".toList) =
      Outcome.Exact ("S1_R1.fq".toList) :=
  (claim_c1_exact_match
    [(("ATCACGCGTGAT".toList), ("S1_R1.fq".toList))] 0
    ("ATCACGCGTGAT".toList) ("S1_R1.fq".toList) (by decide)).1

/-- Claim C5 (code bug evidence): on the single-index (3-stream) path the
compound barcode is indeed the 6-base window of stream 1 at positions
6-12 (0-indexed, half-open) concatenated with all of stream 2 — but no
matched read is ever appended to the sample's combined destination: the
single-index startup (`read_index_single_file`) binds only `XXdict`, never
`XXdict1`, so the very first statement of the demultiplexing section
(`if seqX in XXdict1`, line 678) raises `NameError` for every read, whatever
the read or run state. -/
theorem claim_c5_three_stream_crash (t : Nat) (r : Tuple3) (st : RunState) :
    (format3 r).seqX = (r.record1.seq.drop 6).take 6 ++ r.record2.seq ∧
      demuxStep none t (format3 r) st = Except.error nameErrorMsg := by
  constructor
  · simp only [format3, pySlice]
    rw [List.drop_take]
  · rfl

/-- Claim C8 (amended): for every 4-stream tuple both payload records are
the standard 4-line FASTQ text; the R1 record carries stream 1's
identifier, sequence and quality verbatim, while the R2 record carries
stream 1's identifier together with stream 3's sequence and quality (no
extracted barcode substring appears in either). -/
theorem claim_c8_payload_records (r : Tuple4) :
    (format4 r).new_record1 =
        some (fastqText r.record1.id r.record1.seq r.record1.qual) ∧
      (format4 r).new_record2 =
        some (fastqText r.record1.id r.record3.seq r.record3.qual) := by
  constructor <;> simp [format4, pyFastq, fastqText]

/-- Claim C8 (counterexample to the claim as stated): with stream-1
identifier `A` and stream-3 identifier `B`, the R2 output record is not
stream 3's record reproduced verbatim — its identifier is stream 1's. -/
theorem claim_c8_counterexample :
    (format4
      { record1 := { id := ['A'], seq := ['C'], qual := ['I'] }
      , record2 := { id := ['x'], seq := ['T'], qual := ['J'] }
      , record3 := { id := ['B'], seq := ['G'], qual := ['K'] }
      , record4 := { id := ['y'], seq := ['T'], qual := ['L'] } }).new_record2 ≠
      some (fastqText ['B'] ['G'] ['K']) := by
  decide

/-- Claim C10: `fastq_check` on a file whose first slice has fewer than 4
physical lines does not return a verdict at all: one of the subscripts
`read[0]`, `read[2]`, `read[3]` (or `read[0][0]`/`read[2][0]` on a short
line) is out of range and the check aborts with an uncaught `IndexError`
instead of returning `False`. -/
theorem claim_c10_short_file_index_error (lines : List (List Char))
    (h : lines.length < 4) :
    fastq_check lines = Except.error indexErrorMsg := by
  match lines with
  | [] => rfl
  | [a] =>
    cases a with
    | nil => rfl
    | cons c cs => rfl
  | [a, b] =>
    cases a with
    | nil => rfl
    | cons c cs => rfl
  | [a, b, c] =>
    cases a with
    | nil => rfl
    | cons x xs =>
      cases c with
      | nil => rfl
      | cons y ys => rfl
  | a :: b :: c :: d :: rest =>
    simp at h
    omega

/-- Witness for C10 at the empty file. -/
theorem claim_c10_short_file_index_error_witness :
    fastq_check [] = Except.error indexErrorMsg :=
  claim_c10_short_file_index_error [] (by decide)

/-- Claim C2: a compound barcode that is not an exact key but has exactly
one table key within the threshold is classified `Fuzzy` with the computed
distance; the read's two payload records are appended to that sample's R1
destination and to its derived R2 destination, the sample's per-destination
counter is incremented by one, the fuzzy counter is incremented, and the
read identifier is appended to the fuzzy-match log. -/
theorem claim_c2_unique_fuzzy (tbl : Table) (t : Nat) (r : Tuple4)
    (st : RunState) (m : List Char)
    (h1 : dlookup tbl ((format4 r).seqX) = none)
    (h2 : (tbl.map Prod.fst).filter
      (fun ndx => levenshtein ndx ((format4 r).seqX) ≤ t) = [m]) :
    classify tbl t ((format4 r).seqX) =
        Outcome.Fuzzy (lookupD tbl m) (levenshtein m ((format4 r).seqX)) ∧
      demuxStep (some tbl) t (format4 r) st = Except.ok
        { st with
          files := appendFile
              (appendFile st.files (lookupD tbl m)
                (pyFastq r.record1.id r.record1.seq r.record1.qual))
              (replaceAll r1Pat r2Rep (lookupD tbl m))
              (pyFastq r.record1.id r.record3.seq r.record3.qual)
          dmpd_count := st.dmpd_count + 1
          fuzzy_count := st.fuzzy_count + 1
          fuzzies := st.fuzzies ++ [r.record1.id]
          outputreads := incr st.outputreads (lookupD tbl m) } ∧
      cnt (incr st.outputreads (lookupD tbl m)) (lookupD tbl m) =
        cnt st.outputreads (lookupD tbl m) + 1 := by
  refine ⟨?_, ?_, cnt_incr_self _ _⟩
  · simp only [classify, h1, h2]
  · simp only [demuxStep, readVar, h1, h2, format4_new_record1,
      format4_new_record2, format4_fq_id]

/-- One-row index table (the spec's scenario sample `S1`). -/
def tblW : Table := [(("AAAAAACCCCCC".toList), ("S1_R1.fq".toList))]

/-- Two-row index table (the spec's ambiguity scenario). -/
def tblW2 : Table :=
  [ (("AAAAAACCCCCC".toList), ("S1_R1.fq".toList))
  , (("AAAAAACCCCCG".toList), ("S2_R1.fq".toList)) ]

/-- A concrete 4-stream tuple whose compound barcode is `AAAAAACCCCCT`
(one substitution away from `S1`'s key). -/
def rW : Tuple4 :=
  { record1 := { id := "read1".toList, seq := "CCGG".toList
               , qual := "IIII".toList }
  , record2 := { id := "i1".toList, seq := "CCCCCT".toList
               , qual := "JJJJJJ".toList }
  , record3 := { id := "read2".toList, seq := "TTAA".toList
               , qual := "KKKK".toList }
  , record4 := { id := "i2".toList, seq := "AAAAAA".toList
               , qual := "LLLLLL".toList } }

/-- A concrete 4-stream tuple whose compound barcode is `AAAAAACCCCCA`
(within distance 1 of both keys of `tblW2`). -/
def rW2 : Tuple4 :=
  { record1 := { id := "read1".toList, seq := "CCGG".toList
               , qual := "IIII".toList }
  , record2 := { id := "i1".toList, seq := "CCCCCA".toList
               , qual := "JJJJJJ".toList }
  , record3 := { id := "read2".toList, seq := "TTAA".toList
               , qual := "KKKK".toList }
  , record4 := { id := "i2".toList, seq := "AAAAAA".toList
               , qual := "LLLLLL".toList } }

/-- The run state at the start of the loop. -/
def stInit : RunState :=
  { count := 0, dmpd_count := 0, fuzzy_count := 0, clash_count := 0
  , fuzzies := [], outputreads := [(undeterminedKey, 0)], files := []
  , failed1 := [], failed2 := [] }

/-- Witness for C2 at the spec's scenario: key `AAAAAACCCCCC`, threshold 2,
barcode `AAAAAACCCCCT`. -/
theorem claim_c2_unique_fuzzy_witness :
    classify tblW 2 ((format4 rW).seqX) =
        Outcome.Fuzzy (lookupD tblW ("AAAAAACCCCCC".toList))
          (levenshtein ("AAAAAACCCCCC".toList) ((format4 rW).seqX)) ∧
      demuxStep (some tblW) 2 (format4 rW) stInit = Except.ok
        { stInit with
          files := appendFile
              (appendFile stInit.files (lookupD tblW ("AAAAAACCCCCC".toList))
                (pyFastq rW.record1.id rW.record1.seq rW.record1.qual))
              (replaceAll r1Pat r2Rep (lookupD tblW ("AAAAAACCCCCC".toList)))
              (pyFastq rW.record1.id rW.record3.seq rW.record3.qual)
          dmpd_count := stInit.dmpd_count + 1
          fuzzy_count := stInit.fuzzy_count + 1
          fuzzies := stInit.fuzzies ++ [rW.record1.id]
          outputreads := incr stInit.outputreads
            (lookupD tblW ("AAAAAACCCCCC".toList)) } ∧
      cnt (incr stInit.outputreads (lookupD tblW ("AAAAAACCCCCC".toList)))
          (lookupD tblW ("AAAAAACCCCCC".toList)) =
        cnt stInit.outputreads (lookupD tblW ("AAAAAACCCCCC".toList)) + 1 :=
  claim_c2_unique_fuzzy tblW 2 rW stInit ("AAAAAACCCCCC".toList)
    (by decide) (by decide)

/-- Claim C3: a compound barcode within threshold of two or more distinct
table keys is classified `Ambiguous`; the read goes to the two
`Undetermined` destinations, the clash counter is incremented, the
`Undetermined` counter is incremented, and no other (sample) counter
changes. -/
theorem claim_c3_ambiguous (tbl : Table) (t : Nat) (r : Tuple4)
    (st : RunState) (m1 m2 : List Char) (ms : List (List Char))
    (h1 : dlookup tbl ((format4 r).seqX) = none)
    (h2 : (tbl.map Prod.fst).filter
      (fun ndx => levenshtein ndx ((format4 r).seqX) ≤ t) = m1 :: m2 :: ms) :
    classify tbl t ((format4 r).seqX) =
        Outcome.Ambiguous (m1 :: m2 :: ms).length ∧
      demuxStep (some tbl) t (format4 r) st = Except.ok
        { st with
          clash_count := st.clash_count + 1
          failed1 := st.failed1 ++
            [pyFastq r.record1.id r.record1.seq r.record1.qual]
          failed2 := st.failed2 ++
            [pyFastq r.record1.id r.record3.seq r.record3.qual]
          outputreads := incr st.outputreads undeterminedKey } ∧
      (∀ k, k ≠ undeterminedKey →
        cnt (incr st.outputreads undeterminedKey) k = cnt st.outputreads k) := by
  refine ⟨?_, ?_, fun k hk => cnt_incr_ne _ _ _ hk⟩
  · simp only [classify, h1, h2]
  · simp only [demuxStep, readVar, h1, h2, format4_new_record1,
      format4_new_record2, format4_fq_id]
    simp

/-- Witness for C3 at the spec's ambiguity scenario: two keys at distance 1
of the barcode `AAAAAACCCCCA`, threshold 2. -/
theorem claim_c3_ambiguous_witness :
    classify tblW2 2 ((format4 rW2).seqX) =
        Outcome.Ambiguous
          ([("AAAAAACCCCCC".toList), ("AAAAAACCCCCG".toList)]).length ∧
      demuxStep (some tblW2) 2 (format4 rW2) stInit = Except.ok
        { stInit with
          clash_count := stInit.clash_count + 1
          failed1 := stInit.failed1 ++
            [pyFastq rW2.record1.id rW2.record1.seq rW2.record1.qual]
          failed2 := stInit.failed2 ++
            [pyFastq rW2.record1.id rW2.record3.seq rW2.record3.qual]
          outputreads := incr stInit.outputreads undeterminedKey } ∧
      (∀ k, k ≠ undeterminedKey →
        cnt (incr stInit.outputreads undeterminedKey) k =
          cnt stInit.outputreads k) :=
  claim_c3_ambiguous tblW2 2 rW2 stInit ("AAAAAACCCCCC".toList)
    ("AAAAAACCCCCG".toList) [] (by decide) (by decide)

/-- Claim C4: a compound barcode with no candidate within threshold is
classified `Unmatched`: the read goes to the `Undetermined` destinations
and only the `Undetermined` counter is incremented (every other counter key
is unchanged, and so are the matched/fuzzy/clash counters).  Moreover at
threshold 0 the candidate list of any non-exact barcode is necessarily
empty — fuzzy matching is disabled and every non-exact read is
`Unmatched`. -/
theorem claim_c4_unmatched :
    (∀ (tbl : Table) (t : Nat) (r : Tuple4) (st : RunState),
      dlookup tbl ((format4 r).seqX) = none →
      (tbl.map Prod.fst).filter
        (fun ndx => levenshtein ndx ((format4 r).seqX) ≤ t) = [] →
      classify tbl t ((format4 r).seqX) = Outcome.Unmatched ∧
        demuxStep (some tbl) t (format4 r) st = Except.ok
          { st with
            failed1 := st.failed1 ++
              [pyFastq r.record1.id r.record1.seq r.record1.qual]
            failed2 := st.failed2 ++
              [pyFastq r.record1.id r.record3.seq r.record3.qual]
            outputreads := incr st.outputreads undeterminedKey } ∧
        cnt (incr st.outputreads undeterminedKey) undeterminedKey =
          cnt st.outputreads undeterminedKey + 1 ∧
        (∀ k, k ≠ undeterminedKey →
          cnt (incr st.outputreads undeterminedKey) k =
            cnt st.outputreads k)) ∧
    (∀ (tbl : Table) (seqX : List Char),
      dlookup tbl seqX = none →
      (tbl.map Prod.fst).filter (fun ndx => levenshtein ndx seqX ≤ 0) = [] ∧
        classify tbl 0 seqX = Outcome.Unmatched) := by
  constructor
  · intro tbl t r st h1 h2
    refine ⟨?_, ?_, cnt_incr_self _ _, fun k hk => cnt_incr_ne _ _ _ hk⟩
    · simp only [classify, h1, h2]
    · simp only [demuxStep, readVar, h1, h2, format4_new_record1,
        format4_new_record2, format4_fq_id]
      simp
  · intro tbl seqX h1
    have hfil : (tbl.map Prod.fst).filter
        (fun ndx => levenshtein ndx seqX ≤ 0) = [] := by
      rw [List.filter_eq_nil_iff]
      intro a ha
      simp only [decide_eq_true_eq]
      intro hle
      have h0 : levenshtein a seqX = 0 := Nat.le_zero.mp hle
      have h3 : a = seqX := (levenshtein_eq_zero a seqX).mp h0
      rw [h3] at ha
      exact (dlookup_eq_none tbl seqX).mp h1 ha
    exact ⟨hfil, by simp only [classify, h1, hfil]⟩

/-- Witness for C4: at threshold 0 the barcode `AAAAAACCCCCT` is not an
exact key of the one-row table and has no candidates, so the read is
`Unmatched` and only `Undetermined` is incremented. -/
theorem claim_c4_unmatched_witness :
    (classify tblW 0 ((format4 rW).seqX) = Outcome.Unmatched ∧
        demuxStep (some tblW) 0 (format4 rW) stInit = Except.ok
          { stInit with
            failed1 := stInit.failed1 ++
              [pyFastq rW.record1.id rW.record1.seq rW.record1.qual]
            failed2 := stInit.failed2 ++
              [pyFastq rW.record1.id rW.record3.seq rW.record3.qual]
            outputreads := incr stInit.outputreads undeterminedKey } ∧
        cnt (incr stInit.outputreads undeterminedKey) undeterminedKey =
          cnt stInit.outputreads undeterminedKey + 1 ∧
        (∀ k, k ≠ undeterminedKey →
          cnt (incr stInit.outputreads undeterminedKey) k =
            cnt stInit.outputreads k)) ∧
    ((tblW.map Prod.fst).filter
        (fun ndx => levenshtein ndx ("AAAAAACCCCCT".toList) ≤ 0) = [] ∧
      classify tblW 0 ("AAAAAACCCCCT".toList) = Outcome.Unmatched) :=
  ⟨claim_c4_unmatched.1 tblW 0 rW stInit (by decide) (by decide),
    claim_c4_unmatched.2 tblW ("AAAAAACCCCCT".toList) (by decide)⟩

/-- Claim C6: in dual-index mode each sample row's compound key is the
(stripped) `id2` field concatenated with the reverse complement of the
(stripped) `id1` field; every 4-stream tuple's extracted compound barcode
is the whole of stream 4's sequence followed by the whole of stream 2's;
and a read is classified `Exact` precisely when that extracted barcode is a
key of the table. -/
theorem claim_c6_dual_index :
    (∀ (line sample e1 e2 : List Char) (rest : List (List Char)),
      (splitComma line).map strip = sample :: e1 :: e2 :: rest →
      dualRowKey line = Except.ok (sample, e2 ++ revcomp e1)) ∧
    (∀ r : Tuple4, (format4 r).seqX = r.record4.seq ++ r.record2.seq) ∧
    (∀ (tbl : Table) (t : Nat) (r : Tuple4),
      (∃ dest, classify tbl t ((format4 r).seqX) = Outcome.Exact dest) ↔
        (format4 r).seqX ∈ tbl.map Prod.fst) := by
  refine ⟨?_, fun r => rfl, ?_⟩
  · intro line sample e1 e2 rest h
    simp only [dualRowKey, h, pyIdx]
  · intro tbl t r
    constructor
    · rintro ⟨dest, hc⟩
      by_contra hmem
      have h1 : dlookup tbl ((format4 r).seqX) = none :=
        (dlookup_eq_none _ _).mpr hmem
      rcases hfil : (tbl.map Prod.fst).filter
          (fun ndx => levenshtein ndx ((format4 r).seqX) ≤ t)
        with _ | ⟨a, _ | ⟨b, bs⟩⟩ <;> simp [classify, h1, hfil] at hc
    · intro hmem
      cases hd : dlookup tbl ((format4 r).seqX) with
      | none => exact absurd hmem ((dlookup_eq_none _ _).mp hd)
      | some dest => exact ⟨dest, by simp only [classify, hd]⟩

/-- Witness for C6 at a concrete sample row. -/
theorem claim_c6_dual_index_witness :
    dualRowKey ("S1,AACG,TTAA\n".toList) =
      Except.ok (("S1".toList), ("TTAA".toList) ++ revcomp ("AACG".toList)) :=
  claim_c6_dual_index.1 ("S1,AACG,TTAA\n".toList) ("S1".toList)
    ("AACG".toList) ("TTAA".toList) [] (by decide)

/-- Claim C7 (amended): the run terminates before any read is classified
when neither an index list nor "output all" is requested, and when any of
the three always-checked input files (`read1`, `read2`, `index1`) fails the
FASTQ sanity check.  (The optional second index file is not checked; see
the counterexample.) -/
theorem claim_c7_startup_checks (inp : StartupInput) :
    ((inp.outputall = false ∧ inp.indexlist_given = false) →
      startup_checks inp = Except.error noIndexMsg) ∧
    (∀ f, f ∈ [inp.read1, inp.read2, inp.index1] →
      fastq_check f = Except.ok false →
      ∃ e, startup_checks inp = Except.error e) := by
  constructor
  · intro h
    simp only [startup_checks, if_pos h]
  · intro f hf hfc
    by_cases hcfg : inp.outputall = false ∧ inp.indexlist_given = false
    · exact ⟨noIndexMsg, by simp only [startup_checks, if_pos hcfg]⟩
    · obtain ⟨e, he⟩ := check_files_false _ hf hfc
      exact ⟨e, by simp only [startup_checks, if_neg hcfg]; exact he⟩

/-- A well-formed 4-line FASTQ head used by the C7 theorems. -/
def goodFqLines : List (List Char) :=
  [("@r\n".toList), ("ACGT\n".toList), ("+\n".toList), ("IIII\n".toList)]

/-- A 4-line file failing the sanity check (first line does not start
with `@`). -/
def badFqLines : List (List Char) :=
  [("Xr\n".toList), ("ACGT\n".toList), ("+\n".toList), ("IIII\n".toList)]

/-- Witness for C7: with no index list and no `--outputall` the startup
exits before the loop. -/
theorem claim_c7_startup_checks_witness :
    startup_checks
      { outputall := false, indexlist_given := false
      , read1 := goodFqLines, read2 := goodFqLines
      , index1 := goodFqLines, index2 := none } =
      Except.error noIndexMsg :=
  (claim_c7_startup_checks _).1 ⟨rfl, rfl⟩

/-- Claim C7 (counterexample to the claim as stated): the second index
file is one of the input FASTQ files in dual-index mode, yet a run whose
`index2` file fails the sanity check passes startup unhindered — only
`read1`, `read2` and `index1` are ever checked. -/
theorem claim_c7_counterexample :
    fastq_check badFqLines = Except.ok false ∧
      startup_checks
        { outputall := false, indexlist_given := true
        , read1 := goodFqLines, read2 := goodFqLines
        , index1 := goodFqLines, index2 := some badFqLines } =
        Except.ok () := by
  constructor <;> rfl

/-- Claim C9 (conservation): each processed read increments exactly one
`outputreads` key by exactly one, so after the loop the sum of all
per-destination counts has grown by the number of reads processed and the
total read counter equals that same number. -/
theorem claim_c9_conservation :
    (∀ (tbl : Table) (t : Nat) (r : Tuple4) (st : RunState),
      ∃ k st', demuxStep (some tbl) t (format4 r) st = Except.ok st' ∧
        st'.outputreads = incr st.outputreads k ∧
        sumCounts st'.outputreads = sumCounts st.outputreads + 1) ∧
    (∀ (tbl : Table) (t : Nat) (rs : List Tuple4) (st : RunState),
      ∃ st', runLoop tbl t rs st = Except.ok st' ∧
        st'.count = st.count + rs.length ∧
        sumCounts st'.outputreads = sumCounts st.outputreads + rs.length) := by
  constructor
  · intro tbl t r st
    obtain ⟨k, st', hrun, hout, _⟩ := demuxStep_format4_ok tbl t r st
    exact ⟨k, st', hrun, hout, by rw [hout, sumCounts_incr]⟩
  · intro tbl t rs
    induction rs with
    | nil =>
      intro st
      exact ⟨st, rfl, by simp, by simp⟩
    | cons r rs ih =>
      intro st
      obtain ⟨k, st1, hrun, hout, hcnt⟩ :=
        demuxStep_format4_ok tbl t r { st with count := st.count + 1 }
      have hout' : st1.outputreads = incr st.outputreads k := hout
      have hcnt' : st1.count = st.count + 1 := hcnt
      obtain ⟨st', h4, h5, h6⟩ := ih st1
      refine ⟨st', ?_, ?_, ?_⟩
      · simp only [runLoop]
        rw [hrun]
        exact h4
      · rw [h5, hcnt']
        simp only [List.length_cons]
        omega
      · rw [h6, hout', sumCounts_incr]
        simp only [List.length_cons]
        omega

end Demultiplex
